import Mathlib

/-!
Verification of the time-integration and propagation-mode dispatch subsystem
of an MD engine, embedded shallowly in Lean from the C++ sources
(`PropagationModes.hpp`, `propagation.hpp` and the integrator translation
unit).  Machine integers are modelled as `Nat` (bitmasks, counters) and
`Int` (signed return codes); simulation time and the time step are modelled
as exact rationals.  Numeric propagator kernels are external collaborators:
the embedding records which kernels the core dispatches to, never their
floating-point effect.
-/

/- ---------------------------------------------------------------------
   PropagationMode registry (PropagationModes.hpp)
   --------------------------------------------------------------------- -/

/-- `PropagationMode::NONE`. -/
def PM_NONE : Nat := 0

/-- `PropagationMode::TRANS_SYSTEM_DEFAULT` (1 << 0). -/
def TRANS_SYSTEM_DEFAULT : Nat := 1

/-- `PropagationMode::TRANS_LANGEVIN` (1 << 1). -/
def TRANS_LANGEVIN : Nat := 2

/-- `PropagationMode::TRANS_VS_RELATIVE` (1 << 2). -/
def TRANS_VS_RELATIVE : Nat := 4

/-- `PropagationMode::TRANS_LB_MOMENTUM_EXCHANGE` (1 << 3). -/
def TRANS_LB_MOMENTUM_EXCHANGE : Nat := 8

/-- `PropagationMode::TRANS_LB_TRACER` (1 << 4). -/
def TRANS_LB_TRACER : Nat := 16

/-- `PropagationMode::TRANS_BROWNIAN` (1 << 5). -/
def TRANS_BROWNIAN : Nat := 32

/-- `PropagationMode::TRANS_STOKESIAN` (1 << 6). -/
def TRANS_STOKESIAN : Nat := 64

/-- `PropagationMode::ROT_LANGEVIN` (1 << 7). -/
def ROT_LANGEVIN : Nat := 128

/-- `PropagationMode::ROT_VS_RELATIVE` (1 << 8). -/
def ROT_VS_RELATIVE : Nat := 256

/-- `PropagationMode::ROT_BROWNIAN` (1 << 9). -/
def ROT_BROWNIAN : Nat := 512

/-- Modelled from the spec: `PropagationMode::TRANS_LANGEVIN_NPT` is used by
the integrator sources (NPT-coupled translation) but its declaration is not
among the provided headers; it is modelled as a further distinct bit flag. -/
def TRANS_LANGEVIN_NPT : Nat := 1024

/-- Translation of `is_valid_propagation_combination` from
`PropagationModes.hpp`: empty mask, single-bit mask, same-family pairs,
the two virtual-site/Langevin cross pairs, and lattice-Boltzmann momentum
exchange with virtual-site-relative translation, optionally with either
rotation mode. -/
def is_valid_propagation_combination (propagation : Nat) : Bool :=
  if propagation = 0 then true
  else if propagation &&& (propagation - 1) = 0 then true
  else if propagation = TRANS_LANGEVIN + ROT_LANGEVIN ∨
          propagation = TRANS_VS_RELATIVE + ROT_VS_RELATIVE ∨
          propagation = TRANS_BROWNIAN + ROT_BROWNIAN then true
  else if propagation = TRANS_VS_RELATIVE + ROT_LANGEVIN ∨
          propagation = TRANS_LANGEVIN + ROT_VS_RELATIVE then true
  else if propagation = TRANS_LB_MOMENTUM_EXCHANGE + TRANS_VS_RELATIVE then true
  else if propagation = TRANS_LB_MOMENTUM_EXCHANGE + TRANS_VS_RELATIVE + ROT_LANGEVIN ∨
          propagation = TRANS_LB_MOMENTUM_EXCHANGE + TRANS_VS_RELATIVE + ROT_VS_RELATIVE
  then true
  else false

/-- The validity rule exactly as worded in the specification: the empty mask
is valid; a single-bit mask is always valid; the listed paired combinations
are valid (Langevin+Langevin, virtual-site-relative+virtual-site-relative,
Brownian+Brownian, the two virtual-site-relative/Langevin cross pairs, and
lattice-fluid momentum exchange with virtual-site-relative translation,
optionally extended with either rotation mode); every other multi-bit mask
is invalid.  Written from the spec, to be compared with the source
translation above. -/
def is_valid_combination_spec (m : Nat) : Bool :=
  decide (m = 0) ||
  (List.range 10).any (fun k => decide (m = 2 ^ k)) ||
  decide (m ∈ [TRANS_LANGEVIN + ROT_LANGEVIN,
               TRANS_VS_RELATIVE + ROT_VS_RELATIVE,
               TRANS_BROWNIAN + ROT_BROWNIAN,
               TRANS_VS_RELATIVE + ROT_LANGEVIN,
               TRANS_LANGEVIN + ROT_VS_RELATIVE,
               TRANS_LB_MOMENTUM_EXCHANGE + TRANS_VS_RELATIVE,
               TRANS_LB_MOMENTUM_EXCHANGE + TRANS_VS_RELATIVE + ROT_LANGEVIN,
               TRANS_LB_MOMENTUM_EXCHANGE + TRANS_VS_RELATIVE + ROT_VS_RELATIVE])

set_option maxRecDepth 100000

/-- C4: over the ten-flag universe of `PropagationMode`, the source predicate
`is_valid_propagation_combination` returns true exactly on the masks the
specification lists: the empty mask, single-bit masks, and the documented
paired combinations; every other multi-bit mask is rejected. -/
theorem valid_combination_matches_spec :
    ∀ m, m < 1024 →
      is_valid_propagation_combination m = is_valid_combination_spec m := by
  decide

/-- Witness for C4 at the mask Langevin translation + Brownian rotation. -/
theorem valid_combination_matches_spec_witness :
    TRANS_LANGEVIN + ROT_BROWNIAN < 1024 ∧
      is_valid_propagation_combination (TRANS_LANGEVIN + ROT_BROWNIAN) =
        is_valid_combination_spec (TRANS_LANGEVIN + ROT_BROWNIAN) :=
  ⟨by decide, valid_combination_matches_spec (TRANS_LANGEVIN + ROT_BROWNIAN) (by decide)⟩

/- ---------------------------------------------------------------------
   Integrator state machine (integrator translation unit)
   --------------------------------------------------------------------- -/

/-- Compile-time feature flags of the build (`#ifdef ROTATION`, `#ifdef NPT`,
`#ifdef STOKESIAN_DYNAMICS`). -/
structure Config where
  rotation : Bool
  npt : Bool
  stokesian : Bool

/-- Modelled from the spec: integrator method code from `integrate.hpp`,
which is not among the provided sources; only distinctness of the five
codes and negativity of the error codes matter to the integrator logic. -/
def INTEG_METHOD_NPT_ISO : Int := 0

/-- Modelled from the spec: integrator method code (see
`INTEG_METHOD_NPT_ISO`); NVT is the initial value of `integ_switch`. -/
def INTEG_METHOD_NVT : Int := 1

/-- Modelled from the spec: integrator method code (see
`INTEG_METHOD_NPT_ISO`). -/
def INTEG_METHOD_STEEPEST_DESCENT : Int := 2

/-- Modelled from the spec: integrator method code (see
`INTEG_METHOD_NPT_ISO`). -/
def INTEG_METHOD_BD : Int := 3

/-- Modelled from the spec: integrator method code (see
`INTEG_METHOD_NPT_ISO`). -/
def INTEG_METHOD_SD : Int := 7

/-- Modelled from the spec: the negative return code of `integrate` that
signals a collective runtime error. -/
def INTEG_ERROR_RUNTIME : Int := -1

/-- Modelled from the spec: the negative return code of `integrate` that
signals a caught interrupt; distinct from `INTEG_ERROR_RUNTIME`. -/
def INTEG_ERROR_SIGINT : Int := -2

/-- Modelled from the spec: `reuse_forces` policy code "never reuse". -/
def INTEG_REUSE_FORCES_NEVER : Int := -1

/-- Modelled from the spec: `reuse_forces` policy code "reuse conditionally"
(the derived default). -/
def INTEG_REUSE_FORCES_CONDITIONALLY : Int := 0

/-- Modelled from the spec: `reuse_forces` policy code "always reuse". -/
def INTEG_REUSE_FORCES_ALWAYS : Int := 1

/-- Modelled from the spec: thermostat bit flags from `thermostat.hpp`,
which is not among the provided sources; distinct bits per thermostat. -/
def THERMO_OFF : Nat := 0

/-- Modelled from the spec: thermostat bit flag (see `THERMO_OFF`). -/
def THERMO_NPT_ISO : Nat := 4

/-- Modelled from the spec: thermostat bit flag (see `THERMO_OFF`). -/
def THERMO_BROWNIAN : Nat := 16

/-- Modelled from the spec: thermostat bit flag (see `THERMO_OFF`). -/
def THERMO_SD : Nat := 32

/-- `BoxType` of the box-geometry collaborator. -/
inductive BoxType where
  | CUBOID
  | LEES_EDWARDS
deriving DecidableEq

/-- The process-wide integrator globals, gathered into one record: the
active method (`integ_switch`), the derived `default_propagation`, the time
step (negative sentinel when unset), the elapsed simulation time, the
forces-dirty flag, the two coupled-solver step counters, the interrupt
latch `ctrl_C` and the queued runtime-error messages of this rank. -/
structure IntegState where
  integ_switch : Int
  default_propagation : Nat
  time_step : ℚ
  sim_time : ℚ
  recalc_forces : Bool
  fluid_step : Nat
  ek_step : Nat
  ctrl_C : Bool
  errors : List String

/-- Translation of `default_propagation_from_integ`.  The C++ `switch` is
embedded case by case.  The `INTEG_METHOD_STEEPEST_DESCENT` case has no
`break`: after assigning 0 (commented "should not be used") control falls
through into the `INTEG_METHOD_NVT` case, whose assignment overwrites the 0.
The NPT and Stokesian cases exist only when compiled in; a value reaching
the `default` case throws `std::runtime_error`. -/
def default_propagation_from_integ (cfg : Config) (v : Int) : Except String Nat :=
  if v = INTEG_METHOD_STEEPEST_DESCENT then
    -- missing break: the 0 assigned here is overwritten by the NVT case body
    .ok (TRANS_LANGEVIN + if cfg.rotation then ROT_LANGEVIN else 0)
  else if v = INTEG_METHOD_NVT then
    .ok (TRANS_LANGEVIN + if cfg.rotation then ROT_LANGEVIN else 0)
  else if cfg.npt ∧ v = INTEG_METHOD_NPT_ISO then
    .ok (TRANS_LANGEVIN_NPT + if cfg.rotation then ROT_LANGEVIN else 0)
  else if v = INTEG_METHOD_BD then
    .ok (TRANS_BROWNIAN + if cfg.rotation then ROT_BROWNIAN else 0)
  else if cfg.stokesian ∧ v = INTEG_METHOD_SD then
    .ok TRANS_STOKESIAN
  else .error "Unknown value for integ_switch"

/-- Translation of `set_integ_switch`: store the new switch, mark forces
dirty, recompute the default propagation.  Both assignments precede the call
that may throw, so they persist even when the exception escapes; the
`Option String` component carries that exception. -/
def set_integ_switch (cfg : Config) (value : Int) (s : IntegState) :
    IntegState × Option String :=
  let s1 := { s with integ_switch := value, recalc_forces := true }
  match default_propagation_from_integ cfg value with
  | .ok dp => ({ s1 with default_propagation := dp }, none)
  | .error e => (s1, some e)

/-- Translation of `set_time_step`.  `LB::check_tau_time_step_consistency`
is an external collaborator modelled by the predicate `lb_tau_consistent`.
Both throw sites precede the assignment, so on error the state is returned
untouched; the `Bool` component records whether the `on_timestep_change`
notification fired. -/
def set_time_step (lb_active : Bool) (lb_tau_consistent : ℚ → Bool) (value : ℚ)
    (s : IntegState) : IntegState × Option String × Bool :=
  if value ≤ 0 then (s, some "time_step must be > 0.", false)
  else if lb_active = true ∧ lb_tau_consistent value = false then
    (s, some "LB tau inconsistent with MD time step", false)
  else ({ s with time_step := value }, none, true)

/-- Translation of `increment_sim_time`. -/
def increment_sim_time (amount : ℚ) (s : IntegState) : IntegState :=
  { s with sim_time := s.sim_time + amount }

/-- The guard of the initial force calculation in `integrate`: recompute
when forces may never be reused, or when they are dirty and reuse is not
forced. -/
def needs_initial_forces (reuse_forces : Int) (recalc_forces : Bool) : Bool :=
  decide (reuse_forces = INTEG_REUSE_FORCES_NEVER) ||
    (recalc_forces && !decide (reuse_forces = INTEG_REUSE_FORCES_ALWAYS))

/- ---------------------------------------------------------------------
   Propagation dispatcher and per-step protocol
   --------------------------------------------------------------------- -/

/-- The slice of `Particle` the integrator core reads: the propagation
bitmask.  Positions, velocities, orientations and forces belong to the
external numeric kernels. -/
structure Particle where
  propagation : Nat

/-- Translation of `should_propagate_with`; C++ int truthiness becomes a
nonzero test. -/
def should_propagate_with (default_propagation propagation mode : Nat) : Bool :=
  !decide (propagation &&& mode = 0) ||
    (!decide (default_propagation &&& mode = 0) &&
      !decide (propagation &&& TRANS_SYSTEM_DEFAULT = 0))

/-- The per-particle numeric kernels phase 1 dispatches to; the kernels
themselves are external collaborators, so only the dispatch is recorded. -/
inductive PropagatorKind where
  | vv_vel_pos
  | omega_quat
  | brownian_trans
  | brownian_rot
deriving DecidableEq

/-- The `PropagationMode` flag each phase-1 kernel is dispatched under. -/
def PropagatorKind.flag : PropagatorKind → Nat
  | .vv_vel_pos => TRANS_LANGEVIN
  | .omega_quat => ROT_LANGEVIN
  | .brownian_trans => TRANS_BROWNIAN
  | .brownian_rot => ROT_BROWNIAN

/-- The `per_particle_integration` mask computed at the top of
`integrator_step_1`: the four splittable families, extended by
`TRANS_SYSTEM_DEFAULT` when the default propagation contains one of them. -/
def step1_per_particle_integration (default_propagation : Nat) : Nat :=
  let ppi := TRANS_LANGEVIN + ROT_LANGEVIN + TRANS_BROWNIAN + ROT_BROWNIAN
  if ppi &&& default_propagation = 0 then ppi else ppi + TRANS_SYSTEM_DEFAULT

/-- The kernels the phase-1 particle loop dispatches for one particle: the
loop body runs only under `p.propagation() & per_particle_integration`, and
inside it each family is tried through `should_propagate_with` in the fixed
order Langevin translation, Langevin rotation, Brownian translation,
Brownian rotation. -/
def step1_fired (default_propagation propagation : Nat) : List PropagatorKind :=
  if propagation &&& step1_per_particle_integration default_propagation = 0 then []
  else
    (if should_propagate_with default_propagation propagation TRANS_LANGEVIN then
      [PropagatorKind.vv_vel_pos] else []) ++
    (if should_propagate_with default_propagation propagation ROT_LANGEVIN then
      [PropagatorKind.omega_quat] else []) ++
    (if should_propagate_with default_propagation propagation TRANS_BROWNIAN then
      [PropagatorKind.brownian_trans] else []) ++
    (if should_propagate_with default_propagation propagation ROT_BROWNIAN then
      [PropagatorKind.brownian_rot] else [])

/-- Translation of `get_used_propagations`: OR of all local particle masks,
extended by the default propagation when some particle is default-tagged. -/
def get_used_propagations (default_propagation : Nat) (particles : List Particle) : Nat :=
  let used := particles.foldl (fun acc p => acc ||| p.propagation) 0
  if used &&& TRANS_SYSTEM_DEFAULT = 0 then used else used ||| default_propagation

/-- Translation of `propagation_sanity_checks`: Langevin-NPT translation is
incompatible with the Brownian, Langevin and Stokesian translation modes. -/
def propagation_sanity_checks (used_propagations : Nat) : List String :=
  if used_propagations &&& TRANS_LANGEVIN_NPT ≠ 0 ∧
      used_propagations &&& (TRANS_BROWNIAN + TRANS_LANGEVIN + TRANS_STOKESIAN) ≠ 0 then
    ["Langevin NPT translation is incompatible with other translation modes"]
  else []

/-- Static data of one `integrate` call: compile flags, MPI layout, active
thermostats, box type, coupled lattice solvers, and the abstract per-step
behaviour of the external collaborators (queued errors, signal delivery,
steepest-descent convergence). -/
structure IntegParams where
  cfg : Config
  nranks : Nat
  thermo_switch : Nat
  box_type : BoxType
  lb_active : Bool
  ek_active : Bool
  lb_steps_per_md : Nat
  ek_steps_per_md : Nat
  pre_errors : Bool
  step_error : Nat → Bool
  sigint_arrives : Nat → Bool
  sd_exit : Nat → Bool

/-- Translation of `integrator_sanity_checks`; each `runtimeErrorMsg()`
call becomes a queued message.  The NPT and Stokesian cases are compiled
only under `NPT` and `STOKESIAN_DYNAMICS`; with them absent those switch
values reach the `default` case. -/
def integrator_sanity_checks (p : IntegParams) (s : IntegState) : List String :=
  (if s.time_step < 0 then ["time_step not set"] else []) ++
  (if s.integ_switch = INTEG_METHOD_STEEPEST_DESCENT then
    (if p.thermo_switch ≠ THERMO_OFF then
      ["The steepest descent integrator is incompatible with thermostats"] else [])
   else if s.integ_switch = INTEG_METHOD_NVT then
    (if p.thermo_switch &&& (THERMO_NPT_ISO ||| THERMO_BROWNIAN ||| THERMO_SD) ≠ 0 then
      ["The VV integrator is incompatible with the currently active combination of thermostats"]
     else [])
   else if p.cfg.npt = true ∧ s.integ_switch = INTEG_METHOD_NPT_ISO then
    (if p.thermo_switch ≠ THERMO_OFF ∧ p.thermo_switch ≠ THERMO_NPT_ISO then
      ["The NpT integrator requires the NpT thermostat"] else []) ++
    (if p.box_type = BoxType.LEES_EDWARDS then
      ["The NpT integrator cannot use Lees-Edwards"] else [])
   else if s.integ_switch = INTEG_METHOD_BD then
    (if p.thermo_switch ≠ THERMO_BROWNIAN then
      ["The BD integrator requires the BD thermostat"] else [])
   else if p.cfg.stokesian = true ∧ s.integ_switch = INTEG_METHOD_SD then
    (if p.thermo_switch ≠ THERMO_OFF ∧ p.thermo_switch ≠ THERMO_SD then
      ["The SD integrator requires the SD thermostat"] else [])
   else ["Unknown value for integ_switch"])

/-- Translation of `integrator_step_1`.  On the steepest-descent path the
function returns the minimizer's convergence flag at once, skipping the
rest of phase 1 (including the `sim_time` increment).  Otherwise the
per-particle kernels are dispatched (recorded per particle), the NPT and
Stokesian first-phase kernels run on their filtered ranges when they are
the active default (external kernels, not recorded), and `sim_time`
advances by exactly one `time_step` at the end. -/
def integrator_step_1 (p : IntegParams) (particles : List Particle) (idx : Nat)
    (s : IntegState) : Bool × IntegState × List (List PropagatorKind) :=
  if s.integ_switch = INTEG_METHOD_STEEPEST_DESCENT then
    (p.sd_exit idx, s, [])
  else
    let fired := particles.map (fun q => step1_fired s.default_propagation q.propagation)
    (false, increment_sim_time s.time_step s, fired)

/-- Translation of `integrator_step_2` (dispatch only): skipped entirely
under steepest descent; otherwise the finalize variants of the Langevin
translation and rotation kernels are dispatched per particle through
`should_propagate_with`, and the NPT second-phase kernel runs when it is
the active default (external kernels). -/
def step2_fired (default_propagation propagation : Nat) : List PropagatorKind :=
  let ppi0 := TRANS_LANGEVIN + ROT_LANGEVIN
  let ppi := if ppi0 &&& default_propagation = 0 then ppi0 else ppi0 + TRANS_SYSTEM_DEFAULT
  if propagation &&& ppi = 0 then []
  else
    (if should_propagate_with default_propagation propagation TRANS_LANGEVIN then
      [PropagatorKind.vv_vel_pos] else []) ++
    (if should_propagate_with default_propagation propagation ROT_LANGEVIN then
      [PropagatorKind.omega_quat] else [])

/-- A cumulative record of the calls `integrate` made to its external
collaborators, used to state the observable behaviour of one run. -/
structure Trace where
  initial_force_calc : Bool
  lb_props : Nat
  ek_props : Nat
  steps_done : Nat

/-- The empty trace an `integrate` call starts from. -/
def Trace.init : Trace := ⟨false, 0, 0, 0⟩

/-- Translation of the coupled-solver block of the integration loop (run
only outside steepest descent): when both LB and EK are active they are
assumed coupled, a ratio mismatch queues a runtime error, and the shared
counter `fluid_step` gates both solvers; with only one solver active its
own counter increments each MD step and, on reaching the solver's
steps-per-MD-step ratio, resets to 0 while the solver propagates once. -/
def fluid_coupling (p : IntegParams) (s : IntegState) (tr : Trace) : IntegState × Trace :=
  if p.lb_active && p.ek_active then
    let s1 := if p.lb_steps_per_md ≠ p.ek_steps_per_md then
        { s with errors := s.errors ++ ["LB and EK are active but with different time steps."] }
      else s
    let fs := s1.fluid_step + 1
    if p.lb_steps_per_md ≤ fs then
      ({ s1 with fluid_step := 0 },
       { tr with lb_props := tr.lb_props + 1, ek_props := tr.ek_props + 1 })
    else ({ s1 with fluid_step := fs }, tr)
  else if p.lb_active then
    let fs := s.fluid_step + 1
    if p.lb_steps_per_md ≤ fs then
      ({ s with fluid_step := 0 }, { tr with lb_props := tr.lb_props + 1 })
    else ({ s with fluid_step := fs }, tr)
  else if p.ek_active then
    let es := s.ek_step + 1
    if p.ek_steps_per_md ≤ es then
      ({ s with ek_step := 0 }, { tr with ek_props := tr.ek_props + 1 })
    else ({ s with ek_step := es }, tr)
  else (s, tr)

/-- Translation of `check_runtime_errors`: the collective poll reports
whether any rank queued an error message and flushes the queue. -/
def check_runtime_errors (s : IntegState) : Bool × IntegState :=
  (!s.errors.isEmpty, { s with errors := [] })

/-- Outcome of one iteration of the integration loop: continue, or break
with the early-exit, runtime-error or interrupt reason. -/
inductive IterResult where
  | cont (s : IntegState) (tr : Trace)
  | brk_early (s : IntegState) (tr : Trace)
  | brk_error (s : IntegState) (tr : Trace)
  | brk_sigint (s : IntegState) (tr : Trace)

/-- One iteration of the integration loop in `integrate`, for MD step
`idx`.  Ghost synchronisation, resorting, constraint correction, virtual
sites, collisions and bond breakage are external collaborators without
integrator-state effect; `force_calc` may surface collaborator errors into
the queue.  A delivered SIGINT latches `ctrl_C`.  After the step, queued
errors break the loop first; then, in singleton mode only, the latch. -/
def integ_iteration (p : IntegParams) (particles : List Particle) (idx : Nat)
    (s : IntegState) (tr : Trace) : IterResult :=
  -- SIGINT may be delivered at any point during the step; it is observed
  -- only at the end-of-step check, so latch it up front
  let s0 := { s with ctrl_C := s.ctrl_C || p.sigint_arrives idx }
  let r1 := integrator_step_1 p particles idx s0
  if r1.1 then .brk_early r1.2.1 tr
  else
    let s1 := r1.2.1
    -- Lees-Edwards push kernel, resorting, SHAKE, virtual sites, ghost
    -- update: external.  force_calc may queue collaborator errors:
    let s2 := if p.step_error idx then { s1 with errors := s1.errors ++ ["force_calc"] } else s1
    -- integrator_step_2 dispatches external finalize kernels only
    let str := if s2.integ_switch ≠ INTEG_METHOD_STEEPEST_DESCENT then
        fluid_coupling p s2 tr
      else (s2, tr)
    let s3 := str.1
    let tr3 := str.2
    let chk := check_runtime_errors s3
    if chk.1 then .brk_error chk.2 tr3
    else
      let s4 := chk.2
      if decide (p.nranks = 1) && s4.ctrl_C then .brk_sigint s4 tr3
      else .cont s4 tr3

/-- Why the integration loop stopped. -/
inductive LoopReason where
  | completed
  | early
  | error
  | sigint
deriving DecidableEq

/-- The integration loop of `integrate`: `remaining` steps starting at MD
step index `idx`.  Returns the stop reason, the value of the
`integrated_steps` counter accumulated from this point on (an early exit
breaks before the counter increments; error and interrupt break after),
the final state and the trace. -/
def integ_loop (p : IntegParams) (particles : List Particle) :
    Nat → Nat → IntegState → Trace → LoopReason × Nat × IntegState × Trace
  | 0, _idx, s, tr => (.completed, 0, s, tr)
  | remaining + 1, idx, s, tr =>
    match integ_iteration p particles idx s tr with
    | .brk_early s' tr' => (.early, 0, s', tr')
    | .brk_error s' tr' => (.error, 1, s', tr')
    | .brk_sigint s' tr' => (.sigint, 1, s', tr')
    | .cont s' tr' =>
      let r := integ_loop p particles remaining (idx + 1) s' tr'
      (r.1, r.2.1 + 1, r.2.2)

/-- Translation of `integrate`.  `on_integration_start` is not among the
provided sources; modelled from the spec: the sanity checks of all active
algorithms (including `integrator_sanity_checks`) run once per integration
call and report through the runtime-error channel, with `pre_errors`
standing for vetoes of other subsystems.  Then the used propagations are
collected and checked, a pending error aborts with the runtime-error code
before any step, the initial forces are recomputed when the reuse policy
requires it, and the integration loop runs.  A loop stopped by an interrupt
clears the `ctrl_C` latch and yields the interrupt code; a loop stopped by
an error yields the runtime-error code; otherwise the number of completed
steps is returned. -/
def integrate (p : IntegParams) (particles : List Particle) (n_steps : Nat)
    (reuse_forces : Int) (s : IntegState) : Int × IntegState × Trace :=
  let s1 := { s with errors := s.errors ++ integrator_sanity_checks p s ++
      (if p.pre_errors then ["on_integration_start veto"] else []) }
  let used := get_used_propagations s1.default_propagation particles
  let s2 := { s1 with errors := s1.errors ++ propagation_sanity_checks used }
  let chk0 := check_runtime_errors s2
  if chk0.1 then (INTEG_ERROR_RUNTIME, chk0.2, Trace.init)
  else
    let s3 := chk0.2
    let tr1 := if needs_initial_forces reuse_forces s3.recalc_forces then
        { Trace.init with initial_force_calc := true }
      else Trace.init
    let chk1 := check_runtime_errors s3
    if chk1.1 then (INTEG_ERROR_RUNTIME, chk1.2, tr1)
    else
      let r := integ_loop p particles n_steps 0 chk1.2 tr1
      let tr2 := { r.2.2.2 with steps_done := r.2.1 }
      match r.1 with
      | .sigint => (INTEG_ERROR_SIGINT, { r.2.2.1 with ctrl_C := false }, tr2)
      | .error => (INTEG_ERROR_RUNTIME, r.2.2.1, tr2)
      | _ => ((r.2.1 : Int), r.2.2.1, tr2)

/-- The integrator globals as initialized at process start: NVT method,
unset time step (negative sentinel), zero simulation time, dirty forces,
zero solver counters, no latched interrupt, empty error queue. -/
def initial_state : IntegState :=
  { integ_switch := INTEG_METHOD_NVT, default_propagation := 0,
    time_step := -1, sim_time := 0, recalc_forces := true,
    fluid_step := 0, ek_step := 0, ctrl_C := false, errors := [] }

/-- A build with rotation, NPT and Stokesian dynamics compiled in. -/
def full_build : Config := ⟨true, true, true⟩

/-- C1 (code bug): switching to steepest descent does not leave the
documented no-propagation placeholder 0 in `default_propagation` — the
`switch` case assigns 0 but lacks a `break`, so control falls through into
the NVT case and overwrites it with the Langevin modes.  The rest of the
fixed table behaves as documented (NVT and the fallen-through steepest
descent give Langevin translation + rotation, NPT gives Langevin-NPT
translation + rotation, Brownian gives Brownian translation + rotation,
Stokesian gives Stokesian translation only, and an unrecognized state is
an error). -/
theorem default_propagation_steepest_descent_falls_through :
    (set_integ_switch full_build INTEG_METHOD_STEEPEST_DESCENT
        initial_state).1.default_propagation = TRANS_LANGEVIN + ROT_LANGEVIN ∧
    (set_integ_switch full_build INTEG_METHOD_STEEPEST_DESCENT
        initial_state).1.default_propagation ≠ 0 ∧
    default_propagation_from_integ full_build INTEG_METHOD_STEEPEST_DESCENT =
      .ok (TRANS_LANGEVIN + ROT_LANGEVIN) ∧
    default_propagation_from_integ full_build INTEG_METHOD_NVT =
      .ok (TRANS_LANGEVIN + ROT_LANGEVIN) ∧
    default_propagation_from_integ full_build INTEG_METHOD_NPT_ISO =
      .ok (TRANS_LANGEVIN_NPT + ROT_LANGEVIN) ∧
    default_propagation_from_integ full_build INTEG_METHOD_BD =
      .ok (TRANS_BROWNIAN + ROT_BROWNIAN) ∧
    default_propagation_from_integ full_build INTEG_METHOD_SD =
      .ok TRANS_STOKESIAN ∧
    default_propagation_from_integ full_build 42 =
      .error "Unknown value for integ_switch" :=
  ⟨rfl, by decide, rfl, rfl, rfl, rfl, rfl, rfl⟩

/-- C7: `set_time_step` rejects a non-positive value with a domain error
before mutating anything — the stored state is returned unchanged and the
time-step-changed notification does not fire; a positive value that passes
the lattice-fluid consistency check is stored and the notification fires. -/
theorem set_time_step_domain (lb_active : Bool) (cons : ℚ → Bool) (v : ℚ)
    (s : IntegState) :
    (v ≤ 0 → set_time_step lb_active cons v s =
      (s, some "time_step must be > 0.", false)) ∧
    (0 < v → (lb_active = true → cons v = true) →
      set_time_step lb_active cons v s = ({ s with time_step := v }, none, true)) := by
  constructor
  · intro h
    unfold set_time_step
    rw [if_pos h]
  · intro h hcons
    unfold set_time_step
    rw [if_neg (not_le.mpr h), if_neg]
    rintro ⟨ha, hb⟩
    rw [hcons ha] at hb
    exact absurd hb (by decide)

/-- Witness for C7 at the values -1 (rejected) and 1 (accepted). -/
theorem set_time_step_domain_witness :
    set_time_step false (fun _ => true) (-1) initial_state =
      (initial_state, some "time_step must be > 0.", false) ∧
    set_time_step false (fun _ => true) 1 initial_state =
      ({ initial_state with time_step := 1 }, none, true) :=
  ⟨(set_time_step_domain false (fun _ => true) (-1) initial_state).1 (by norm_num),
   (set_time_step_domain false (fun _ => true) 1 initial_state).2 (by norm_num)
     (fun h => absurd h (by decide))⟩

/- ---------------------------------------------------------------------
   Loop invariants
   --------------------------------------------------------------------- -/

/-- State component of an iteration outcome. -/
def IterResult.state : IterResult → IntegState
  | .cont s _ => s
  | .brk_early s _ => s
  | .brk_error s _ => s
  | .brk_sigint s _ => s

/-- Trace component of an iteration outcome. -/
def IterResult.trace : IterResult → Trace
  | .cont _ tr => tr
  | .brk_early _ tr => tr
  | .brk_error _ tr => tr
  | .brk_sigint _ tr => tr

/-- The coupled-solver block never touches the interrupt latch. -/
theorem fluid_coupling_ctrl (p : IntegParams) (s : IntegState) (tr : Trace) :
    (fluid_coupling p s tr).1.ctrl_C = s.ctrl_C := by
  unfold fluid_coupling
  dsimp only
  split_ifs <;> rfl

/-- The coupled-solver block never touches the simulation time. -/
theorem fluid_coupling_sim_time (p : IntegParams) (s : IntegState) (tr : Trace) :
    (fluid_coupling p s tr).1.sim_time = s.sim_time := by
  unfold fluid_coupling
  dsimp only
  split_ifs <;> rfl

/-- The coupled-solver block never touches the time step. -/
theorem fluid_coupling_time_step (p : IntegParams) (s : IntegState) (tr : Trace) :
    (fluid_coupling p s tr).1.time_step = s.time_step := by
  unfold fluid_coupling
  dsimp only
  split_ifs <;> rfl

/-- The coupled-solver block never touches the integrator switch. -/
theorem fluid_coupling_integ_switch (p : IntegParams) (s : IntegState) (tr : Trace) :
    (fluid_coupling p s tr).1.integ_switch = s.integ_switch := by
  unfold fluid_coupling
  dsimp only
  split_ifs <;> rfl

/-- The coupled-solver block never touches the forces-dirty flag. -/
theorem fluid_coupling_recalc (p : IntegParams) (s : IntegState) (tr : Trace) :
    (fluid_coupling p s tr).1.recalc_forces = s.recalc_forces := by
  unfold fluid_coupling
  dsimp only
  split_ifs <;> rfl

/-- The coupled-solver block never touches the default propagation. -/
theorem fluid_coupling_default_prop (p : IntegParams) (s : IntegState) (tr : Trace) :
    (fluid_coupling p s tr).1.default_propagation = s.default_propagation := by
  unfold fluid_coupling
  dsimp only
  split_ifs <;> rfl

/-- The coupled-solver block never touches the initial-force-calc record. -/
theorem fluid_coupling_trace_ifc (p : IntegParams) (s : IntegState) (tr : Trace) :
    (fluid_coupling p s tr).2.initial_force_calc = tr.initial_force_calc := by
  unfold fluid_coupling
  dsimp only
  split_ifs <;> rfl

/-- When LB and EK, if simultaneously active, agree on their ratio, the
coupled-solver block queues no error. -/
theorem fluid_coupling_errors (p : IntegParams) (s : IntegState) (tr : Trace)
    (hfl : p.lb_active = true → p.ek_active = true →
      p.lb_steps_per_md = p.ek_steps_per_md) :
    (fluid_coupling p s tr).1.errors = s.errors := by
  unfold fluid_coupling
  dsimp only
  split_ifs with h1 h2 <;>
    first
      | rfl
      | (rw [Bool.and_eq_true] at h1; exact absurd (hfl h1.1 h1.2) h2)

/-- Updating the latch with the value it already holds is the identity. -/
theorem IntegState_eta_ctrl (s : IntegState) (h : s.ctrl_C = false) :
    ({ s with ctrl_C := false } : IntegState) = s := by
  cases s
  simp_all

/-- Flushing an already empty error queue is the identity. -/
theorem IntegState_eta_errors (s : IntegState) (h : s.errors = []) :
    ({ s with errors := [] } : IntegState) = s := by
  cases s
  simp_all


/-- Under clean step conditions (not steepest descent, no collaborator
error, no solver ratio mismatch, empty error queue, clear latch, no signal
delivery) one loop iteration continues: the simulation time advances by one
time step and the coupled solvers make their ratio-gated progress. -/
theorem integ_iteration_clean (p : IntegParams) (particles : List Particle)
    (idx : Nat) (s : IntegState) (tr : Trace)
    (hsd : s.integ_switch ≠ INTEG_METHOD_STEEPEST_DESCENT)
    (herr : p.step_error idx = false)
    (hsig : p.sigint_arrives idx = false)
    (hfl : p.lb_active = true → p.ek_active = true →
      p.lb_steps_per_md = p.ek_steps_per_md)
    (hse : s.errors = [])
    (hc : s.ctrl_C = false) :
    integ_iteration p particles idx s tr =
      .cont (fluid_coupling p (increment_sim_time s.time_step s) tr).1
            (fluid_coupling p (increment_sim_time s.time_step s) tr).2 := by
  have h0 : ({ s with ctrl_C := s.ctrl_C || p.sigint_arrives idx } : IntegState) = s := by
    rw [hsig, hc]
    exact IntegState_eta_ctrl s hc
  have hstep : integrator_step_1 p particles idx s =
      (false, increment_sim_time s.time_step s,
        particles.map fun q => step1_fired s.default_propagation q.propagation) := by
    unfold integrator_step_1
    rw [if_neg hsd]
  have herr3 : (fluid_coupling p (increment_sim_time s.time_step s) tr).1.errors = [] := by
    rw [fluid_coupling_errors p _ tr hfl]
    exact hse
  unfold integ_iteration
  simp only []
  rw [h0, hstep]
  simp only [herr, Bool.false_eq_true, if_false]
  rw [if_pos (show (increment_sim_time s.time_step s).integ_switch ≠
    INTEG_METHOD_STEEPEST_DESCENT from hsd)]
  unfold check_runtime_errors
  simp only [herr3, List.isEmpty_nil, Bool.not_true, Bool.false_eq_true, if_false,
    IntegState_eta_errors _ herr3]
  rw [if_neg]
  rw [fluid_coupling_ctrl]
  simp [increment_sim_time, hc]

/-- When the signal arrives during an otherwise clean singleton-mode step,
the iteration breaks with the interrupt reason and a latched `ctrl_C`; the
simulation time still advanced by one time step. -/
theorem integ_iteration_sigint (p : IntegParams) (particles : List Particle)
    (idx : Nat) (s : IntegState) (tr : Trace)
    (hsd : s.integ_switch ≠ INTEG_METHOD_STEEPEST_DESCENT)
    (herr : p.step_error idx = false)
    (hsig : p.sigint_arrives idx = true)
    (hfl : p.lb_active = true → p.ek_active = true →
      p.lb_steps_per_md = p.ek_steps_per_md)
    (hse : s.errors = [])
    (hr : p.nranks = 1) :
    integ_iteration p particles idx s tr =
      .brk_sigint
        (fluid_coupling p (increment_sim_time s.time_step { s with ctrl_C := true }) tr).1
        (fluid_coupling p (increment_sim_time s.time_step { s with ctrl_C := true }) tr).2 := by
  have h0 : ({ s with ctrl_C := s.ctrl_C || p.sigint_arrives idx } : IntegState) =
      { s with ctrl_C := true } := by
    rw [hsig]
    simp
  have hstep : integrator_step_1 p particles idx { s with ctrl_C := true } =
      (false, increment_sim_time s.time_step { s with ctrl_C := true },
        particles.map fun q => step1_fired s.default_propagation q.propagation) := by
    unfold integrator_step_1
    rw [if_neg (show ({ s with ctrl_C := true } : IntegState).integ_switch ≠
      INTEG_METHOD_STEEPEST_DESCENT from hsd)]
  have herr3 : (fluid_coupling p
      (increment_sim_time s.time_step { s with ctrl_C := true }) tr).1.errors = [] := by
    rw [fluid_coupling_errors p _ tr hfl]
    exact hse
  unfold integ_iteration
  simp only []
  rw [h0, hstep]
  simp only [herr, Bool.false_eq_true, if_false]
  rw [if_pos (show (increment_sim_time s.time_step
    ({ s with ctrl_C := true } : IntegState)).integ_switch ≠
    INTEG_METHOD_STEEPEST_DESCENT from hsd)]
  unfold check_runtime_errors
  simp only [herr3, List.isEmpty_nil, Bool.not_true, Bool.false_eq_true, if_false,
    IntegState_eta_errors _ herr3]
  rw [if_pos]
  rw [fluid_coupling_ctrl]
  simp [increment_sim_time, hr]

/-- A fully clean loop completes all requested steps: the step counter
equals the request, the simulation time advances by exactly that many time
steps, the latch stays clear, the queue stays empty, and the method, time
step, forces flag and default propagation are untouched. -/
theorem integ_loop_clean (p : IntegParams) (particles : List Particle)
    (herr : ∀ j, p.step_error j = false)
    (hsig : ∀ j, p.sigint_arrives j = false)
    (hfl : p.lb_active = true → p.ek_active = true →
      p.lb_steps_per_md = p.ek_steps_per_md) :
    ∀ (m idx : Nat) (s : IntegState) (tr : Trace),
      s.integ_switch ≠ INTEG_METHOD_STEEPEST_DESCENT →
      s.errors = [] → s.ctrl_C = false →
      (integ_loop p particles m idx s tr).1 = .completed ∧
      (integ_loop p particles m idx s tr).2.1 = m ∧
      (integ_loop p particles m idx s tr).2.2.1.sim_time
        = s.sim_time + m * s.time_step ∧
      (integ_loop p particles m idx s tr).2.2.1.ctrl_C = false ∧
      (integ_loop p particles m idx s tr).2.2.1.errors = [] ∧
      (integ_loop p particles m idx s tr).2.2.1.time_step = s.time_step ∧
      (integ_loop p particles m idx s tr).2.2.1.integ_switch = s.integ_switch ∧
      (integ_loop p particles m idx s tr).2.2.1.recalc_forces = s.recalc_forces ∧
      (integ_loop p particles m idx s tr).2.2.1.default_propagation
        = s.default_propagation ∧
      (integ_loop p particles m idx s tr).2.2.2.initial_force_calc
        = tr.initial_force_calc := by
  intro m
  induction m with
  | zero =>
    intro idx s tr hsd hse hc
    simp [integ_loop, hse, hc]
  | succ n ih =>
    intro idx s tr hsd hse hc
    have hit := integ_iteration_clean p particles idx s tr hsd (herr idx) (hsig idx)
      hfl hse hc
    have hA1 : (fluid_coupling p (increment_sim_time s.time_step s) tr).1.integ_switch
        = s.integ_switch := by
      rw [fluid_coupling_integ_switch]
      rfl
    have hA2 : (fluid_coupling p (increment_sim_time s.time_step s) tr).1.errors = [] := by
      rw [fluid_coupling_errors p _ tr hfl]
      exact hse
    have hA3 : (fluid_coupling p (increment_sim_time s.time_step s) tr).1.ctrl_C = false := by
      rw [fluid_coupling_ctrl]
      exact hc
    have hA4 : (fluid_coupling p (increment_sim_time s.time_step s) tr).1.sim_time
        = s.sim_time + s.time_step := by
      rw [fluid_coupling_sim_time]
      rfl
    have hA5 : (fluid_coupling p (increment_sim_time s.time_step s) tr).1.time_step
        = s.time_step := by
      rw [fluid_coupling_time_step]
      rfl
    have hA6 : (fluid_coupling p (increment_sim_time s.time_step s) tr).1.recalc_forces
        = s.recalc_forces := by
      rw [fluid_coupling_recalc]
      rfl
    have hA7 : (fluid_coupling p (increment_sim_time s.time_step s) tr).1.default_propagation
        = s.default_propagation := by
      rw [fluid_coupling_default_prop]
      rfl
    obtain ⟨i1, i2, i3, i4, i5, i6, i7, i8, i9, i10⟩ :=
      ih (idx + 1) (fluid_coupling p (increment_sim_time s.time_step s) tr).1
        (fluid_coupling p (increment_sim_time s.time_step s) tr).2
        (by rw [hA1]; exact hsd) hA2 hA3
    simp only [integ_loop, hit]
    refine ⟨i1, by rw [i2], ?_, i4, i5, by rw [i6, hA5], by rw [i7, hA1],
      by rw [i8, hA6], by rw [i9, hA7],
      by rw [i10, fluid_coupling_trace_ifc]⟩
    rw [i3, hA4, hA5]
    push_cast
    ring

/-- A clean singleton-mode loop whose only signal arrives during step `K`
stops right at that step boundary with `K - idx + 1` further steps counted,
a latched interrupt, and the simulation time advanced by exactly the
attempted steps. -/
theorem integ_loop_sigint (p : IntegParams) (particles : List Particle) (K : Nat)
    (herr : ∀ j, p.step_error j = false)
    (hsig : ∀ j, p.sigint_arrives j = decide (j = K))
    (hfl : p.lb_active = true → p.ek_active = true →
      p.lb_steps_per_md = p.ek_steps_per_md)
    (hr : p.nranks = 1) :
    ∀ (m idx : Nat) (s : IntegState) (tr : Trace),
      idx ≤ K → K < idx + m →
      s.integ_switch ≠ INTEG_METHOD_STEEPEST_DESCENT →
      s.errors = [] → s.ctrl_C = false →
      (integ_loop p particles m idx s tr).1 = .sigint ∧
      (integ_loop p particles m idx s tr).2.1 = K - idx + 1 ∧
      (integ_loop p particles m idx s tr).2.2.1.sim_time
        = s.sim_time + ((K : ℚ) - (idx : ℚ) + 1) * s.time_step ∧
      (integ_loop p particles m idx s tr).2.2.1.ctrl_C = true ∧
      (integ_loop p particles m idx s tr).2.2.1.errors = [] ∧
      (integ_loop p particles m idx s tr).2.2.1.time_step = s.time_step ∧
      (integ_loop p particles m idx s tr).2.2.1.integ_switch = s.integ_switch ∧
      (integ_loop p particles m idx s tr).2.2.1.recalc_forces = s.recalc_forces ∧
      (integ_loop p particles m idx s tr).2.2.1.default_propagation
        = s.default_propagation ∧
      (integ_loop p particles m idx s tr).2.2.2.initial_force_calc
        = tr.initial_force_calc := by
  intro m
  induction m with
  | zero =>
    intro idx s tr hile hlt hsd hse hc
    omega
  | succ n ih =>
    intro idx s tr hile hlt hsd hse hc
    by_cases hik : idx = K
    · have hit := integ_iteration_sigint p particles idx s tr hsd (herr idx)
        (by rw [hsig idx, hik]; simp) hfl hse hr
      have hloop : integ_loop p particles (n + 1) idx s tr =
          (.sigint, 1,
            (fluid_coupling p (increment_sim_time s.time_step
              ({ s with ctrl_C := true } : IntegState)) tr).1,
            (fluid_coupling p (increment_sim_time s.time_step
              ({ s with ctrl_C := true } : IntegState)) tr).2) := by
        simp only [integ_loop, hit]
      rw [hloop]
      dsimp only
      have hB2 : (fluid_coupling p (increment_sim_time s.time_step
          ({ s with ctrl_C := true } : IntegState)) tr).1.errors = [] := by
        rw [fluid_coupling_errors p _ tr hfl]
        exact hse
      refine ⟨rfl, by omega, ?_,
        by rw [fluid_coupling_ctrl]; rfl, hB2,
        by rw [fluid_coupling_time_step]; rfl,
        by rw [fluid_coupling_integ_switch]; rfl,
        by rw [fluid_coupling_recalc]; rfl,
        by rw [fluid_coupling_default_prop]; rfl,
        by rw [fluid_coupling_trace_ifc]⟩
      rw [fluid_coupling_sim_time]
      simp only [increment_sim_time]
      rw [hik]
      ring
    · have hikl : idx < K := by omega
      have hit := integ_iteration_clean p particles idx s tr hsd (herr idx)
        (by rw [hsig idx]; simp; omega) hfl hse hc
      have hA1 : (fluid_coupling p (increment_sim_time s.time_step s) tr).1.integ_switch
          = s.integ_switch := by
        rw [fluid_coupling_integ_switch]
        rfl
      have hA2 : (fluid_coupling p (increment_sim_time s.time_step s) tr).1.errors = [] := by
        rw [fluid_coupling_errors p _ tr hfl]
        exact hse
      have hA3 : (fluid_coupling p (increment_sim_time s.time_step s) tr).1.ctrl_C = false := by
        rw [fluid_coupling_ctrl]
        exact hc
      obtain ⟨i1, i2, i3, i4, i5, i6, i7, i8, i9, i10⟩ :=
        ih (idx + 1) (fluid_coupling p (increment_sim_time s.time_step s) tr).1
          (fluid_coupling p (increment_sim_time s.time_step s) tr).2
          (by omega) (by omega) (by rw [hA1]; exact hsd) hA2 hA3
      simp only [integ_loop, hit]
      refine ⟨i1, by rw [i2]; omega, ?_, i4, i5,
        by rw [i6, fluid_coupling_time_step]; rfl,
        by rw [i7, hA1],
        by rw [i8, fluid_coupling_recalc]; rfl,
        by rw [i9, fluid_coupling_default_prop]; rfl,
        by rw [i10, fluid_coupling_trace_ifc]⟩
      rw [i3, fluid_coupling_sim_time, fluid_coupling_time_step]
      simp only [increment_sim_time]
      push_cast
      ring

/-- With only the lattice-Boltzmann fluid active, the coupled-solver block
reduces to the single-counter gate: increment, and on reaching the ratio
reset to zero and propagate once. -/
theorem fluid_coupling_lb (p : IntegParams) (s : IntegState) (tr : Trace)
    (hlb : p.lb_active = true) (hek : p.ek_active = false) :
    fluid_coupling p s tr =
      if p.lb_steps_per_md ≤ s.fluid_step + 1 then
        ({ s with fluid_step := 0 }, { tr with lb_props := tr.lb_props + 1 })
      else ({ s with fluid_step := s.fluid_step + 1 }, tr) := by
  unfold fluid_coupling
  rw [hlb, hek]
  simp

/-- Closed form of the LB cadence over a clean loop: starting from a
counter below the ratio, after `m` MD steps the counter equals
`(start + m) % ratio` and the fluid propagated `(start + m) / ratio`
further times. -/
theorem integ_loop_lb (p : IntegParams) (particles : List Particle)
    (herr : ∀ j, p.step_error j = false)
    (hsig : ∀ j, p.sigint_arrives j = false)
    (hlb : p.lb_active = true) (hek : p.ek_active = false)
    (hN : 1 ≤ p.lb_steps_per_md) :
    ∀ (m idx : Nat) (s : IntegState) (tr : Trace),
      s.integ_switch ≠ INTEG_METHOD_STEEPEST_DESCENT →
      s.errors = [] → s.ctrl_C = false →
      s.fluid_step < p.lb_steps_per_md →
      (integ_loop p particles m idx s tr).2.2.1.fluid_step
        = (s.fluid_step + m) % p.lb_steps_per_md ∧
      (integ_loop p particles m idx s tr).2.2.2.lb_props
        = tr.lb_props + (s.fluid_step + m) / p.lb_steps_per_md := by
  have hfl : p.lb_active = true → p.ek_active = true →
      p.lb_steps_per_md = p.ek_steps_per_md := by
    intro _ h
    rw [hek] at h
    exact absurd h (by decide)
  intro m
  induction m with
  | zero =>
    intro idx s tr hsd hse hc hcnt
    simp [integ_loop, Nat.mod_eq_of_lt hcnt, Nat.div_eq_of_lt hcnt]
  | succ n ih =>
    intro idx s tr hsd hse hc hcnt
    have hit := integ_iteration_clean p particles idx s tr hsd (herr idx) (hsig idx)
      hfl hse hc
    have hflb := fluid_coupling_lb p (increment_sim_time s.time_step s) tr hlb hek
    simp only [integ_loop, hit]
    by_cases hfire : p.lb_steps_per_md ≤ s.fluid_step + 1
    · -- the counter reaches the ratio: it resets and the solver propagates
      have hNe : s.fluid_step + 1 = p.lb_steps_per_md := by omega
      have hA : fluid_coupling p (increment_sim_time s.time_step s) tr =
          ({ increment_sim_time s.time_step s with fluid_step := 0 },
            { tr with lb_props := tr.lb_props + 1 }) := by
        rw [hflb]
        rw [if_pos (show p.lb_steps_per_md ≤
          (increment_sim_time s.time_step s).fluid_step + 1 from hfire)]
      obtain ⟨j1, j2⟩ := ih (idx + 1)
        ({ increment_sim_time s.time_step s with fluid_step := 0 } : IntegState)
        ({ tr with lb_props := tr.lb_props + 1 } : Trace)
        (by exact hsd) (by exact hse) (by exact hc) (by dsimp only [increment_sim_time]; omega)
      rw [hA]
      dsimp only [increment_sim_time]
      dsimp only [increment_sim_time] at j1 j2
      constructor
      · rw [j1]
        have h9 : s.fluid_step + (n + 1) = n + p.lb_steps_per_md := by omega
        rw [h9, Nat.add_mod_right]
        simp
      · rw [j2]
        have h9 : s.fluid_step + (n + 1) = n + p.lb_steps_per_md := by omega
        rw [h9, Nat.add_div_right _ (by omega)]
        simp only [Nat.zero_add]
        omega
    · -- the counter merely increments
      have hA : fluid_coupling p (increment_sim_time s.time_step s) tr =
          ({ increment_sim_time s.time_step s with
              fluid_step := (increment_sim_time s.time_step s).fluid_step + 1 }, tr) := by
        rw [hflb]
        rw [if_neg (show ¬ p.lb_steps_per_md ≤
          (increment_sim_time s.time_step s).fluid_step + 1 from hfire)]
      obtain ⟨j1, j2⟩ := ih (idx + 1)
        ({ increment_sim_time s.time_step s with
            fluid_step := (increment_sim_time s.time_step s).fluid_step + 1 } : IntegState)
        tr (by exact hsd) (by exact hse) (by exact hc) (by dsimp only [increment_sim_time]; omega)
      rw [hA]
      dsimp only [increment_sim_time]
      dsimp only [increment_sim_time] at j1 j2
      constructor
      · rw [j1]
        have : s.fluid_step + 1 + n = s.fluid_step + (n + 1) := by omega
        rw [this]
      · rw [j2]
        have : s.fluid_step + 1 + n = s.fluid_step + (n + 1) := by omega
        rw [this]

/-- When the pre-loop sanity checks all pass, `integrate` reduces to its
integration loop followed by the return-code post-processing. -/
theorem integrate_eq_loop (p : IntegParams) (particles : List Particle)
    (n_steps : Nat) (reuse_forces : Int) (s : IntegState)
    (hsan : integrator_sanity_checks p s = [])
    (hpre : p.pre_errors = false)
    (hprop : propagation_sanity_checks
      (get_used_propagations s.default_propagation particles) = [])
    (hse : s.errors = []) :
    integrate p particles n_steps reuse_forces s =
      (let tr1 := if needs_initial_forces reuse_forces s.recalc_forces then
          { Trace.init with initial_force_calc := true } else Trace.init
       let r := integ_loop p particles n_steps 0 s tr1
       let tr2 := { r.2.2.2 with steps_done := r.2.1 }
       match r.1 with
       | .sigint => (INTEG_ERROR_SIGINT, { r.2.2.1 with ctrl_C := false }, tr2)
       | .error => (INTEG_ERROR_RUNTIME, r.2.2.1, tr2)
       | _ => ((r.2.1 : Int), r.2.2.1, tr2)) := by
  have hs2 : ({ s with errors := (s.errors ++ integrator_sanity_checks p s ++ (if p.pre_errors = true then ["on_integration_start veto"] else [])) ++ propagation_sanity_checks (get_used_propagations s.default_propagation particles) } : IntegState) = s := by
    rw [hsan, hpre, hse, hprop]
    simp only [List.append_nil, List.nil_append, Bool.false_eq_true, if_false]
    exact IntegState_eta_errors s hse
  have hchk : check_runtime_errors s = (false, s) := by
    unfold check_runtime_errors
    rw [hse]
    simp only [List.isEmpty_nil, Bool.not_true]
    rw [IntegState_eta_errors s hse]
  unfold integrate
  simp only []
  simp only [hs2, hchk, Bool.false_eq_true, if_false]

/-- The integrator sanity checks read only the time step and the method
switch from the mutable state. -/
theorem sanity_checks_congr (p : IntegParams) (s s' : IntegState)
    (h1 : s'.time_step = s.time_step) (h2 : s'.integ_switch = s.integ_switch) :
    integrator_sanity_checks p s' = integrator_sanity_checks p s := by
  unfold integrator_sanity_checks
  rw [h1, h2]

/-- C3: in every integration step off the steepest-descent path, phase 1
(`integrator_step_1`) advances `sim_time` by exactly one `time_step` at its
end, unconditionally (and never requests an early exit); and a successful
full clean run of `n` steps returns `n` with `sim_time` increased by
exactly `n * time_step`. -/
theorem step1_advances_sim_time (p : IntegParams) (particles : List Particle) :
    (∀ (idx : Nat) (s : IntegState),
      s.integ_switch ≠ INTEG_METHOD_STEEPEST_DESCENT →
      (integrator_step_1 p particles idx s).1 = false ∧
      (integrator_step_1 p particles idx s).2.1.sim_time = s.sim_time + s.time_step) ∧
    (∀ (n : Nat) (reuse : Int) (s : IntegState),
      s.integ_switch ≠ INTEG_METHOD_STEEPEST_DESCENT →
      integrator_sanity_checks p s = [] →
      p.pre_errors = false →
      propagation_sanity_checks
        (get_used_propagations s.default_propagation particles) = [] →
      s.errors = [] → s.ctrl_C = false →
      (∀ j, p.step_error j = false) → (∀ j, p.sigint_arrives j = false) →
      (p.lb_active = true → p.ek_active = true →
        p.lb_steps_per_md = p.ek_steps_per_md) →
      (integrate p particles n reuse s).1 = (n : Int) ∧
      (integrate p particles n reuse s).2.1.sim_time
        = s.sim_time + n * s.time_step) := by
  constructor
  · intro idx s hsd
    unfold integrator_step_1
    rw [if_neg hsd]
    exact ⟨rfl, rfl⟩
  · intro n reuse s hsd hsan hpre hprop hse hc herr hsig hfl
    rw [integrate_eq_loop p particles n reuse s hsan hpre hprop hse]
    simp only []
    obtain ⟨i1, i2, i3, i4, i5, i6, i7, i8, i9, i10⟩ :=
      integ_loop_clean p particles herr hsig hfl n 0 s
        (if needs_initial_forces reuse s.recalc_forces = true then
          { Trace.init with initial_force_calc := true } else Trace.init)
        hsd hse hc
    rw [i1]
    exact ⟨by rw [i2], i3⟩

/-- A clean single-rank NVT run in which SIGINT is delivered during the
fourth MD step (index 3). -/
def sigint_demo_params : IntegParams :=
  { cfg := full_build, nranks := 1, thermo_switch := THERMO_OFF,
    box_type := BoxType.CUBOID, lb_active := false, ek_active := false,
    lb_steps_per_md := 1, ek_steps_per_md := 1, pre_errors := false,
    step_error := fun _ => false, sigint_arrives := fun j => decide (j = 3),
    sd_exit := fun _ => false }

/-- The same run with no signal delivery at all. -/
def clean_demo_params : IntegParams :=
  { sigint_demo_params with sigint_arrives := fun _ => false }

/-- NVT state with the Langevin default propagation and unit time step. -/
def nvt_demo_state : IntegState :=
  { integ_switch := INTEG_METHOD_NVT,
    default_propagation := TRANS_LANGEVIN + ROT_LANGEVIN,
    time_step := 1, sim_time := 0, recalc_forces := true,
    fluid_step := 0, ek_step := 0, ctrl_C := false, errors := [] }

/-- Witness for C3: one NVT step from the demo state, and a clean 10-step
run with unit time step. -/
theorem step1_advances_sim_time_witness :
    (integrator_step_1 clean_demo_params [] 0 nvt_demo_state).1 = false ∧
    (integrator_step_1 clean_demo_params [] 0 nvt_demo_state).2.1.sim_time
      = nvt_demo_state.sim_time + nvt_demo_state.time_step ∧
    (integrate clean_demo_params [] 10 0 nvt_demo_state).1 = ((10 : Nat) : Int) ∧
    (integrate clean_demo_params [] 10 0 nvt_demo_state).2.1.sim_time
      = nvt_demo_state.sim_time + ((10 : Nat) : ℚ) * nvt_demo_state.time_step := by
  obtain ⟨h1, h2⟩ := step1_advances_sim_time clean_demo_params []
  obtain ⟨a, b⟩ := h1 0 nvt_demo_state (by decide)
  obtain ⟨c, d⟩ := h2 10 0 nvt_demo_state (by decide) (by decide) rfl rfl rfl rfl
    (fun _ => rfl) (fun _ => rfl) (by intro hx _; exact absurd hx (by decide))
  exact ⟨a, b, c, d⟩

/-- C2 (amended): in a clean single-rank run interrupted during step `K` of
`n > K` requested, `integrate` stops at that step boundary with `K + 1`
completed steps counted internally, but returns only the interrupt
sentinel `INTEG_ERROR_SIGINT` — the completed-step count is not reported —
and clears the interrupt latch, so an immediately subsequent call without
a new signal runs to completion and returns `n`. -/
theorem integrate_interrupt_behaviour
    (p : IntegParams) (particles : List Particle) (s : IntegState)
    (n K : Nat) (reuse reuse2 : Int)
    (hn : K < n)
    (hr : p.nranks = 1)
    (hsd : s.integ_switch ≠ INTEG_METHOD_STEEPEST_DESCENT)
    (hsan : integrator_sanity_checks p s = [])
    (hpre : p.pre_errors = false)
    (hprop : propagation_sanity_checks
      (get_used_propagations s.default_propagation particles) = [])
    (herr : ∀ j, p.step_error j = false)
    (hfl : p.lb_active = true → p.ek_active = true →
      p.lb_steps_per_md = p.ek_steps_per_md)
    (hse : s.errors = [])
    (hc : s.ctrl_C = false)
    (hsig : ∀ j, p.sigint_arrives j = decide (j = K)) :
    (integrate p particles n reuse s).1 = INTEG_ERROR_SIGINT ∧
    (integrate p particles n reuse s).2.2.steps_done = K + 1 ∧
    (integrate p particles n reuse s).2.1.ctrl_C = false ∧
    (integrate { p with sigint_arrives := fun _ => false } particles n reuse2
      (integrate p particles n reuse s).2.1).1 = (n : Int) := by
  rw [integrate_eq_loop p particles n reuse s hsan hpre hprop hse]
  simp only []
  obtain ⟨i1, i2, i3, i4, i5, i6, i7, i8, i9, i10⟩ :=
    integ_loop_sigint p particles K herr hsig hfl hr n 0 s
      (if needs_initial_forces reuse s.recalc_forces = true then
        { Trace.init with initial_force_calc := true } else Trace.init)
      (by omega) (by omega) hsd hse hc
  rw [i1]
  refine ⟨rfl, by dsimp only; rw [i2]; omega, rfl, ?_⟩
  -- the state handed to the subsequent call
  set s2 := (integ_loop p particles n 0 s
    (if needs_initial_forces reuse s.recalc_forces = true then
      { Trace.init with initial_force_calc := true } else Trace.init)).2.2.1 with hs2def
  set p0 : IntegParams := { p with sigint_arrives := fun _ => false } with hp0def
  have hts : ({ s2 with ctrl_C := false } : IntegState).time_step = s.time_step := i6
  have hsw : ({ s2 with ctrl_C := false } : IntegState).integ_switch = s.integ_switch := i7
  have hdp : ({ s2 with ctrl_C := false } : IntegState).default_propagation
      = s.default_propagation := i9
  have hsan0 : integrator_sanity_checks p0 ({ s2 with ctrl_C := false } : IntegState) = [] := by
    rw [show integrator_sanity_checks p0 ({ s2 with ctrl_C := false } : IntegState)
        = integrator_sanity_checks p ({ s2 with ctrl_C := false } : IntegState) from rfl]
    rw [sanity_checks_congr p s ({ s2 with ctrl_C := false } : IntegState) hts hsw]
    exact hsan
  have hprop0 : propagation_sanity_checks
      (get_used_propagations ({ s2 with ctrl_C := false } : IntegState).default_propagation
        particles) = [] := by
    rw [hdp]
    exact hprop
  rw [integrate_eq_loop p0 particles n reuse2 ({ s2 with ctrl_C := false } : IntegState)
    hsan0 hpre hprop0 (by dsimp only; exact i5)]
  simp only []
  obtain ⟨j1, j2, j3, j4, j5, j6, j7, j8, j9, j10⟩ :=
    integ_loop_clean p0 particles (fun j => herr j) (fun _ => rfl) hfl n 0
      ({ s2 with ctrl_C := false } : IntegState)
      (if needs_initial_forces reuse2 ({ s2 with ctrl_C := false } : IntegState).recalc_forces
          = true then
        { Trace.init with initial_force_calc := true } else Trace.init)
      (by rw [hsw]; exact hsd) (by dsimp only; exact i5) rfl
  rw [j1]
  rw [j2]

/-- C2 counterexample: interrupted during the fourth of ten steps, the loop
has completed 4 steps, yet `integrate` returns `INTEG_ERROR_SIGINT`, which
is not 4 — the call does not report the completed-step count together with
the interrupt outcome. -/
theorem integrate_interrupt_counterexample :
    (integrate sigint_demo_params [] 10 INTEG_REUSE_FORCES_CONDITIONALLY
        nvt_demo_state).2.2.steps_done = 4 ∧
    (integrate sigint_demo_params [] 10 INTEG_REUSE_FORCES_CONDITIONALLY
        nvt_demo_state).1 = INTEG_ERROR_SIGINT ∧
    INTEG_ERROR_SIGINT ≠ (4 : Int) :=
  ⟨rfl, rfl, by decide⟩

/-- Witness for C2 at the demo run (`K = 3`, `n = 10`). -/
theorem integrate_interrupt_behaviour_witness :
    (integrate sigint_demo_params [] 10 0 nvt_demo_state).1 = INTEG_ERROR_SIGINT ∧
    (integrate sigint_demo_params [] 10 0 nvt_demo_state).2.2.steps_done = 3 + 1 ∧
    (integrate sigint_demo_params [] 10 0 nvt_demo_state).2.1.ctrl_C = false ∧
    (integrate { sigint_demo_params with sigint_arrives := fun _ => false } [] 10 0
      (integrate sigint_demo_params [] 10 0 nvt_demo_state).2.1).1 = ((10 : Nat) : Int) :=
  integrate_interrupt_behaviour sigint_demo_params [] nvt_demo_state 10 3 0 0
    (by decide) rfl (by decide) (by decide) rfl rfl (fun _ => rfl)
    (by intro hx _; exact absurd hx (by decide)) rfl rfl (fun _ => rfl)

/-- A non-empty error queue makes the collective poll report an error. -/
theorem check_runtime_errors_of_ne (s : IntegState) (h : s.errors ≠ []) :
    (check_runtime_errors s).1 = true := by
  unfold check_runtime_errors
  simpa using h

/-- C6: with the integrator switched to NPT-isotropic while the box is in
Lees-Edwards mode, the sanity check queues a configuration error and
`integrate` returns the runtime-error code before the loop runs a single
step: the trace is still empty, zero steps are recorded and the simulation
time is untouched. -/
theorem npt_lees_edwards_rejected (p : IntegParams) (particles : List Particle)
    (n : Nat) (reuse : Int) (s : IntegState)
    (hswitch : s.integ_switch = INTEG_METHOD_NPT_ISO)
    (hnpt : p.cfg.npt = true)
    (hbox : p.box_type = BoxType.LEES_EDWARDS) :
    (integrate p particles n reuse s).1 = INTEG_ERROR_RUNTIME ∧
    (integrate p particles n reuse s).2.2 = Trace.init ∧
    (integrate p particles n reuse s).2.2.steps_done = 0 ∧
    (integrate p particles n reuse s).2.1.sim_time = s.sim_time := by
  have hmem : "The NpT integrator cannot use Lees-Edwards" ∈
      integrator_sanity_checks p s := by
    unfold integrator_sanity_checks
    rw [hswitch]
    simp [hnpt, hbox, INTEG_METHOD_NPT_ISO, INTEG_METHOD_NVT,
      INTEG_METHOD_STEEPEST_DESCENT]
  have hne : ((s.errors ++ integrator_sanity_checks p s ++
      (if p.pre_errors = true then ["on_integration_start veto"] else [])) ++
      propagation_sanity_checks
        (get_used_propagations s.default_propagation particles)) ≠ [] := by
    intro h
    simp only [List.append_eq_nil] at h
    rw [h.1.1.2] at hmem
    exact absurd hmem (List.not_mem_nil _)
  unfold integrate
  simp only []
  rw [if_pos (check_runtime_errors_of_ne _ hne)]
  exact ⟨rfl, rfl, rfl, rfl⟩

/-- The clean demo parameters with a Lees-Edwards box. -/
def npt_le_demo_params : IntegParams :=
  { clean_demo_params with box_type := BoxType.LEES_EDWARDS }

/-- The demo state switched to the NPT-isotropic method. -/
def npt_demo_state : IntegState :=
  { nvt_demo_state with integ_switch := INTEG_METHOD_NPT_ISO }

/-- Witness for C6 at the demo configuration. -/
theorem npt_lees_edwards_rejected_witness :
    (integrate npt_le_demo_params [] 10 0 npt_demo_state).1 = INTEG_ERROR_RUNTIME ∧
    (integrate npt_le_demo_params [] 10 0 npt_demo_state).2.2 = Trace.init ∧
    (integrate npt_le_demo_params [] 10 0 npt_demo_state).2.2.steps_done = 0 ∧
    (integrate npt_le_demo_params [] 10 0 npt_demo_state).2.1.sim_time
      = npt_demo_state.sim_time :=
  npt_lees_edwards_rejected npt_le_demo_params [] 10 0 npt_demo_state rfl rfl rfl

/-- C8: with only the lattice fluid active at ratio `N ≥ 1` and the counter
starting at zero, a clean `n`-step run completes returning `n`, invokes the
fluid's `propagate()` exactly `n / N` times — once every `N` MD steps — and
leaves the counter at `n % N` (it resets to 0 on the step that fires). -/
theorem lb_cadence (p : IntegParams) (particles : List Particle)
    (n : Nat) (reuse : Int) (s : IntegState)
    (hlb : p.lb_active = true) (hek : p.ek_active = false)
    (hN : 1 ≤ p.lb_steps_per_md)
    (hstart : s.fluid_step = 0)
    (hsd : s.integ_switch ≠ INTEG_METHOD_STEEPEST_DESCENT)
    (hsan : integrator_sanity_checks p s = [])
    (hpre : p.pre_errors = false)
    (hprop : propagation_sanity_checks
      (get_used_propagations s.default_propagation particles) = [])
    (hse : s.errors = []) (hc : s.ctrl_C = false)
    (herr : ∀ j, p.step_error j = false)
    (hsig : ∀ j, p.sigint_arrives j = false) :
    (integrate p particles n reuse s).1 = (n : Int) ∧
    (integrate p particles n reuse s).2.2.lb_props = n / p.lb_steps_per_md ∧
    (integrate p particles n reuse s).2.1.fluid_step = n % p.lb_steps_per_md := by
  have hfl : p.lb_active = true → p.ek_active = true →
      p.lb_steps_per_md = p.ek_steps_per_md := by
    intro _ h
    rw [hek] at h
    exact absurd h (by decide)
  rw [integrate_eq_loop p particles n reuse s hsan hpre hprop hse]
  simp only []
  obtain ⟨i1, i2, i3, i4, i5, i6, i7, i8, i9, i10⟩ :=
    integ_loop_clean p particles herr hsig hfl n 0 s
      (if needs_initial_forces reuse s.recalc_forces = true then
        { Trace.init with initial_force_calc := true } else Trace.init)
      hsd hse hc
  obtain ⟨j1, j2⟩ :=
    integ_loop_lb p particles herr hsig hlb hek hN n 0 s
      (if needs_initial_forces reuse s.recalc_forces = true then
        { Trace.init with initial_force_calc := true } else Trace.init)
      hsd hse hc (by omega)
  rw [i1]
  refine ⟨by rw [i2], ?_, ?_⟩
  · dsimp only
    rw [j2, hstart]
    have htr : (if needs_initial_forces reuse s.recalc_forces = true then
        ({ Trace.init with initial_force_calc := true } : Trace)
        else Trace.init).lb_props = 0 := by
      split <;> rfl
    rw [htr]
    simp
  · rw [j1, hstart]
    simp

/-- The clean demo parameters with the lattice fluid active at ratio 3. -/
def lb_demo_params : IntegParams :=
  { clean_demo_params with lb_active := true, lb_steps_per_md := 3 }

/-- Witness for C8: ten MD steps at ratio 3 yield three fluid steps and a
counter of 1. -/
theorem lb_cadence_witness :
    (integrate lb_demo_params [] 10 0 nvt_demo_state).1 = ((10 : Nat) : Int) ∧
    (integrate lb_demo_params [] 10 0 nvt_demo_state).2.2.lb_props = 10 / 3 ∧
    (integrate lb_demo_params [] 10 0 nvt_demo_state).2.1.fluid_step = 10 % 3 :=
  lb_cadence lb_demo_params [] 10 0 nvt_demo_state rfl rfl (by decide) rfl
    (by decide) (by decide) rfl rfl rfl rfl (fun _ => rfl) (fun _ => rfl)

/-- A bitwise OR vanishes exactly when both operands do. -/
theorem lor_eq_zero_iff (x y : Nat) : x ||| y = 0 ↔ x = 0 ∧ y = 0 := by
  constructor
  · intro h
    constructor
    · by_contra hx
      obtain ⟨i, hi⟩ := Nat.ne_zero_implies_bit_true hx
      have hb : (x ||| y).testBit i = true := by
        rw [Nat.testBit_lor, hi]
        rfl
      rw [h] at hb
      simp at hb
    · by_contra hy
      obtain ⟨i, hi⟩ := Nat.ne_zero_implies_bit_true hy
      have hb : (x ||| y).testBit i = true := by
        rw [Nat.testBit_lor, hi]
        simp
      rw [h] at hb
      simp at hb
  · rintro ⟨hx, hy⟩
    rw [hx, hy]
    rfl

/-- Masking with a single bit vanishes exactly when that bit is clear. -/
theorem and_two_pow_eq_zero (x k : Nat) : x &&& 2 ^ k = 0 ↔ x.testBit k = false := by
  rw [Nat.and_two_pow]
  cases h : x.testBit k
  · simp
  · have h2 : (2 : Nat) ^ k ≠ 0 := pow_ne_zero k (by norm_num)
    simp [h2]

/-- Decomposition of the phase-1 family mask 674 (Langevin and Brownian
translation and rotation bits). -/
theorem and_674_eq_zero (x : Nat) :
    x &&& 674 = 0 ↔
      (x.testBit 1 = false ∧ x.testBit 5 = false ∧
       x.testBit 7 = false ∧ x.testBit 9 = false) := by
  have h674 : (674 : Nat) = 2 ^ 1 ||| (2 ^ 5 ||| (2 ^ 7 ||| 2 ^ 9)) := by decide
  rw [h674, Nat.and_or_distrib_left, Nat.and_or_distrib_left, Nat.and_or_distrib_left,
    lor_eq_zero_iff, lor_eq_zero_iff, lor_eq_zero_iff,
    and_two_pow_eq_zero, and_two_pow_eq_zero, and_two_pow_eq_zero, and_two_pow_eq_zero]

/-- Decomposition of the mask 675 (the family mask extended with the
system-default bit). -/
theorem and_675_eq_zero (x : Nat) :
    x &&& 675 = 0 ↔
      (x.testBit 0 = false ∧ x.testBit 1 = false ∧ x.testBit 5 = false ∧
       x.testBit 7 = false ∧ x.testBit 9 = false) := by
  have h675 : (675 : Nat) = 2 ^ 0 ||| (2 ^ 1 ||| (2 ^ 5 ||| (2 ^ 7 ||| 2 ^ 9))) := by decide
  rw [h675, Nat.and_or_distrib_left, Nat.and_or_distrib_left, Nat.and_or_distrib_left,
    Nat.and_or_distrib_left, lor_eq_zero_iff, lor_eq_zero_iff, lor_eq_zero_iff,
    lor_eq_zero_iff, and_two_pow_eq_zero, and_two_pow_eq_zero, and_two_pow_eq_zero,
    and_two_pow_eq_zero, and_two_pow_eq_zero]

/-- The dispatcher predicate in propositional form. -/
theorem should_propagate_with_iff (dp prop mode : Nat) :
    should_propagate_with dp prop mode = true ↔
      (prop &&& mode ≠ 0 ∨ (dp &&& mode ≠ 0 ∧ prop &&& TRANS_SYSTEM_DEFAULT ≠ 0)) := by
  unfold should_propagate_with
  simp

/-- A phase-1 kernel fires for a particle exactly when the outer
family-mask gate passes and the dispatcher predicate holds for its flag. -/
theorem mem_step1_fired (dp prop : Nat) (F : PropagatorKind) :
    F ∈ step1_fired dp prop ↔
      (prop &&& step1_per_particle_integration dp ≠ 0 ∧
        should_propagate_with dp prop F.flag = true) := by
  unfold step1_fired
  cases F <;>
    split_ifs with hgate <;>
    simp_all [PropagatorKind.flag]

/-- C5: the per-particle dispatcher of phase 1 runs family `F`'s propagator
exactly when the particle's mask meets `F`, or when `F` is part of the
global default propagation and the mask carries `TRANS_SYSTEM_DEFAULT`; in
particular a particle tagged only `TRANS_SYSTEM_DEFAULT` is propagated by
Langevin kernels under the Langevin default and by Brownian kernels under
the Brownian default, without touching its own mask. -/
theorem dispatcher_substitution :
    (∀ dp prop F, F ∈ step1_fired dp prop ↔
      (prop &&& F.flag ≠ 0 ∨
        (dp &&& F.flag ≠ 0 ∧ prop &&& TRANS_SYSTEM_DEFAULT ≠ 0))) ∧
    step1_fired (TRANS_LANGEVIN + ROT_LANGEVIN) TRANS_SYSTEM_DEFAULT =
      [PropagatorKind.vv_vel_pos, PropagatorKind.omega_quat] ∧
    step1_fired (TRANS_BROWNIAN + ROT_BROWNIAN) TRANS_SYSTEM_DEFAULT =
      [PropagatorKind.brownian_trans, PropagatorKind.brownian_rot] := by
  refine ⟨?_, by decide, by decide⟩
  intro dp prop F
  rw [mem_step1_fired]
  constructor
  · rintro ⟨-, hs⟩
    exact (should_propagate_with_iff dp prop F.flag).1 hs
  · intro h
    refine ⟨?_, (should_propagate_with_iff dp prop F.flag).2 h⟩
    unfold step1_per_particle_integration
    simp only [TRANS_LANGEVIN, ROT_LANGEVIN, TRANS_BROWNIAN, ROT_BROWNIAN,
      TRANS_SYSTEM_DEFAULT, Nat.reduceAdd]
    split_ifs with hgate
    · -- the default contains no splittable family: the gate mask stays 674
      rw [Nat.and_comm, and_674_eq_zero] at hgate
      intro h0
      rw [and_674_eq_zero] at h0
      rcases h with hA | ⟨hB, hTSD⟩
      · cases F
        · exact hA ((and_two_pow_eq_zero prop 1).2 h0.1)
        · exact hA ((and_two_pow_eq_zero prop 7).2 h0.2.2.1)
        · exact hA ((and_two_pow_eq_zero prop 5).2 h0.2.1)
        · exact hA ((and_two_pow_eq_zero prop 9).2 h0.2.2.2)
      · cases F
        · exact hB ((and_two_pow_eq_zero dp 1).2 hgate.1)
        · exact hB ((and_two_pow_eq_zero dp 7).2 hgate.2.2.1)
        · exact hB ((and_two_pow_eq_zero dp 5).2 hgate.2.1)
        · exact hB ((and_two_pow_eq_zero dp 9).2 hgate.2.2.2)
    · -- the default contains a splittable family: the gate mask is 675
      intro h0
      rw [and_675_eq_zero] at h0
      rcases h with hA | ⟨hB, hTSD⟩
      · cases F
        · exact hA ((and_two_pow_eq_zero prop 1).2 h0.2.1)
        · exact hA ((and_two_pow_eq_zero prop 7).2 h0.2.2.2.1)
        · exact hA ((and_two_pow_eq_zero prop 5).2 h0.2.2.1)
        · exact hA ((and_two_pow_eq_zero prop 9).2 h0.2.2.2.2)
      · exact hTSD ((and_two_pow_eq_zero prop 0).2 h0.1)

/-- C9: every call to `set_integ_switch` leaves `recalc_forces = true`
(whether or not the propagation-table lookup throws); under the default
reuse-forces policy a dirty flag satisfies the initial-force-calculation
guard of `integrate`, and a clean `integrate` call on such a state does
perform the initial force recomputation. -/
theorem set_integ_switch_marks_forces_dirty :
    (∀ (cfg : Config) (v : Int) (s : IntegState),
      (set_integ_switch cfg v s).1.recalc_forces = true) ∧
    needs_initial_forces INTEG_REUSE_FORCES_CONDITIONALLY true = true ∧
    (∀ (p : IntegParams) (particles : List Particle) (n : Nat) (s : IntegState),
      integrator_sanity_checks p s = [] → p.pre_errors = false →
      propagation_sanity_checks
        (get_used_propagations s.default_propagation particles) = [] →
      s.errors = [] → s.ctrl_C = false →
      s.integ_switch ≠ INTEG_METHOD_STEEPEST_DESCENT →
      (∀ j, p.step_error j = false) → (∀ j, p.sigint_arrives j = false) →
      (p.lb_active = true → p.ek_active = true →
        p.lb_steps_per_md = p.ek_steps_per_md) →
      s.recalc_forces = true →
      (integrate p particles n INTEG_REUSE_FORCES_CONDITIONALLY
        s).2.2.initial_force_calc = true) := by
  refine ⟨?_, rfl, ?_⟩
  · intro cfg v s
    unfold set_integ_switch
    rcases hdp : default_propagation_from_integ cfg v with e | dp <;> simp [hdp]
  · intro p particles n s hsan hpre hprop hse hc hsd herr hsig hfl hrf
    rw [integrate_eq_loop p particles n INTEG_REUSE_FORCES_CONDITIONALLY s
      hsan hpre hprop hse]
    simp only [hrf]
    obtain ⟨i1, i2, i3, i4, i5, i6, i7, i8, i9, i10⟩ :=
      integ_loop_clean p particles herr hsig hfl n 0 s
        (if needs_initial_forces INTEG_REUSE_FORCES_CONDITIONALLY true = true then
          { Trace.init with initial_force_calc := true } else Trace.init)
        hsd hse hc
    rw [i1]
    dsimp only
    rw [i10]
    rfl

/-- Witness for C9: switching to Brownian dynamics, then a clean 5-step
run. -/
theorem set_integ_switch_marks_forces_dirty_witness :
    (set_integ_switch full_build INTEG_METHOD_BD initial_state).1.recalc_forces = true ∧
    needs_initial_forces INTEG_REUSE_FORCES_CONDITIONALLY true = true ∧
    (integrate clean_demo_params [] 5 INTEG_REUSE_FORCES_CONDITIONALLY
      nvt_demo_state).2.2.initial_force_calc = true := by
  obtain ⟨h1, h2, h3⟩ := set_integ_switch_marks_forces_dirty
  exact ⟨h1 full_build INTEG_METHOD_BD initial_state, h2,
    h3 clean_demo_params [] 5 nvt_demo_state (by decide) rfl rfl rfl rfl (by decide)
      (fun _ => rfl) (fun _ => rfl)
      (by intro hx _; exact absurd hx (by decide)) rfl⟩

